import Mathlib

/-!
Shallow embedding of the sampling-and-derivation core of the
system-command-center dashboard (files `system_command_center.py`,
`system_command_center_v4.py`).  Raw kernel counters are modelled as `ℕ`,
clock readings and derived rates as `ℚ`, a failed read as `none`, and each
sampler's process-wide "last sample" attributes as an explicit state record
threaded through the call.
-/

namespace SCC

/-- Colour constants from the `self.colors` dictionary of
`SystemCommandCenter.__init__` (v4). -/
def colors_text_dim : String := "#6e7681"

/-- `colors["nominal"]` (v4). -/
def colors_nominal : String := "#00ff88"

/-- `colors["warning"]` (v4). -/
def colors_warning : String := "#ffaa00"

/-- `colors["critical"]` (v4). -/
def colors_critical : String := "#ff0040"

/-- `SystemCommandCenter.get_temp_color_status(self, temp, thresholds)` of
`system_command_center_v4.py` (lines 1055-1064): `None` maps to the dim
OFFLINE pair; otherwise the value is compared against the `(low, high)`
thresholds.  Returns the `(color, status-label)` pair exactly as the code
does. -/
def get_temp_color_status (temp : Option ℚ) (low high : ℚ) : String × String :=
  match temp with
  | none => (colors_text_dim, "● OFFLINE")
  | some t =>
    if t < low then (colors_nominal, "● NOMINAL")
    else if t < high then (colors_warning, "● ELEVATED")
    else (colors_critical, "● CRITICAL")

/-- A history buffer as initialised in `SystemCommandCenter.__init__` (v4
lines 80-85): `[0] * 60`. -/
def history_init : List ℚ := List.replicate 60 0

/-- One push into a history buffer, as performed each tick, e.g. v4 lines
1228-1229: `self.cpu_history.pop(0)` followed by
`self.cpu_history.append(usage)`. -/
def history_push (l : List ℚ) (v : ℚ) : List ℚ := l.drop 1 ++ [v]

theorem history_push_of_cons (a : ℚ) (l : List ℚ) (v : ℚ) :
    history_push (a :: l) v = l ++ [v] := rfl

/-- Folding `history_push` over a nonempty start buffer keeps the "drop the
oldest, append the newest" shape: the result is the concatenation with the
first `vs.length` elements dropped. -/
theorem foldl_history_push (vs : List ℚ) :
    ∀ l : List ℚ, l ≠ [] → vs.foldl history_push l = (l ++ vs).drop vs.length := by
  induction vs with
  | nil => intro l _; simp
  | cons v vs ih =>
    intro l hl
    match l with
    | a :: l' =>
      rw [List.foldl_cons, history_push_of_cons, ih (l' ++ [v]) (by simp)]
      simp [List.drop_succ_cons, List.append_assoc]

/-- Python's `str.startswith`: the first characters of `s` are exactly
`pre`.  (Modelled on the character list so that it evaluates.) -/
def str_starts_with (s pre : String) : Bool :=
  decide (s.data.take pre.data.length = pre.data)

/-- One network interface as seen under `/sys/class/net`: its name and the
two byte counters read from `statistics/rx_bytes` / `statistics/tx_bytes`. -/
structure Iface where
  name : String
  rx_bytes : ℕ
  tx_bytes : ℕ
deriving DecidableEq

/-- The interface filter of v4 `get_network_speed` (lines 962-987):
`iface.name not in ('lo', 'docker0') and not iface.name.startswith('veth')`. -/
def iface_counted_v4 (i : Iface) : Bool :=
  i.name ≠ "lo" && i.name ≠ "docker0" && !(str_starts_with i.name "veth")

/-- Sum of `rx_bytes` over the interfaces the v4 loop counts. -/
def rx_total_v4 (ifaces : List Iface) : ℕ :=
  ((ifaces.filter iface_counted_v4).map Iface.rx_bytes).sum

/-- Sum of `tx_bytes` over the interfaces the v4 loop counts. -/
def tx_total_v4 (ifaces : List Iface) : ℕ :=
  ((ifaces.filter iface_counted_v4).map Iface.tx_bytes).sum

/-- The `self.last_net_rx` / `self.last_net_tx` / `self.last_net_time`
attributes (initialised to `0`, `0`, `time.time()` in `__init__`). -/
structure NetState where
  last_net_rx : ℕ
  last_net_tx : ℕ
  last_net_time : ℚ
deriving DecidableEq

/-- `SystemCommandCenter.get_network_speed` of `system_command_center_v4.py`
(lines 962-987): sums the counters over the counted interfaces, computes
`elapsed = now - self.last_net_time`, derives each speed as
`(total - last) / elapsed if elapsed > 0 and last > 0 else 0`, stores the
new totals and time, and returns `(max(0, rx_speed), max(0, tx_speed))`. -/
def get_network_speed (ifaces : List Iface) (now : ℚ) (s : NetState) :
    (ℚ × ℚ) × NetState :=
  let rx_total := rx_total_v4 ifaces
  let tx_total := tx_total_v4 ifaces
  let elapsed := now - s.last_net_time
  let rx_speed : ℚ :=
    if 0 < elapsed ∧ 0 < s.last_net_rx then
      ((rx_total : ℚ) - (s.last_net_rx : ℚ)) / elapsed
    else 0
  let tx_speed : ℚ :=
    if 0 < elapsed ∧ 0 < s.last_net_tx then
      ((tx_total : ℚ) - (s.last_net_tx : ℚ)) / elapsed
    else 0
  ((max 0 rx_speed, max 0 tx_speed), ⟨rx_total, tx_total, now⟩)

/-- The interface filter of the v1 `get_network_speed`
(`system_command_center.py` lines 685-712): only `lo` is excluded. -/
def iface_counted_v1 (i : Iface) : Bool := i.name ≠ "lo"

/-- Sum of `rx_bytes` over the interfaces the v1 loop counts. -/
def rx_total_v1 (ifaces : List Iface) : ℕ :=
  ((ifaces.filter iface_counted_v1).map Iface.rx_bytes).sum

/-- Sum of `tx_bytes` over the interfaces the v1 loop counts. -/
def tx_total_v1 (ifaces : List Iface) : ℕ :=
  ((ifaces.filter iface_counted_v1).map Iface.tx_bytes).sum

/-- `SystemCommandCenter.get_network_speed` of `system_command_center.py`
(lines 685-712).  Identical to the v4 version except that the speed guard is
only `elapsed > 0` — there is no `last > 0` first-call guard. -/
def get_network_speed_v1 (ifaces : List Iface) (now : ℚ) (s : NetState) :
    (ℚ × ℚ) × NetState :=
  let rx_total := rx_total_v1 ifaces
  let tx_total := tx_total_v1 ifaces
  let elapsed := now - s.last_net_time
  let rx_speed : ℚ :=
    if 0 < elapsed then ((rx_total : ℚ) - (s.last_net_rx : ℚ)) / elapsed else 0
  let tx_speed : ℚ :=
    if 0 < elapsed then ((tx_total : ℚ) - (s.last_net_tx : ℚ)) / elapsed else 0
  ((max 0 rx_speed, max 0 tx_speed), ⟨rx_total, tx_total, now⟩)

/-- One row of `/proc/diskstats` as the v4 loop consumes it: the device name
(`parts[2]`) and the sectors-read / sectors-written columns (`parts[5]`,
`parts[9]`). -/
structure DiskRow where
  name : String
  read_sectors : ℕ
  write_sectors : ℕ
deriving DecidableEq

/-- Bytes read summed over the `nvme*` rows, at 512 bytes per sector, as in
v4 `get_disk_io`: `read_bytes += int(parts[5]) * 512`. -/
def disk_read_bytes (rows : List DiskRow) : ℕ :=
  ((rows.filter (fun r => str_starts_with r.name "nvme")).map
    (fun r => r.read_sectors * 512)).sum

/-- Bytes written summed over the `nvme*` rows, at 512 bytes per sector. -/
def disk_write_bytes (rows : List DiskRow) : ℕ :=
  ((rows.filter (fun r => str_starts_with r.name "nvme")).map
    (fun r => r.write_sectors * 512)).sum

/-- The `self.last_disk_read` / `self.last_disk_write` / `self.last_disk_time`
attributes (initialised to `0`, `0`, `time.time()` in `__init__`). -/
structure DiskState where
  last_disk_read : ℕ
  last_disk_write : ℕ
  last_disk_time : ℚ
deriving DecidableEq

/-- `SystemCommandCenter.get_disk_io` of `system_command_center_v4.py`
(lines 936-960): sums sector counters over `nvme*` rows into byte totals,
computes each speed as `(bytes - last) / elapsed if elapsed > 0 and last > 0
else 0`, stores the new totals and time, and returns the clamped pair. -/
def get_disk_io (rows : List DiskRow) (now : ℚ) (s : DiskState) :
    (ℚ × ℚ) × DiskState :=
  let read_bytes := disk_read_bytes rows
  let write_bytes := disk_write_bytes rows
  let elapsed := now - s.last_disk_time
  let read_speed : ℚ :=
    if 0 < elapsed ∧ 0 < s.last_disk_read then
      ((read_bytes : ℚ) - (s.last_disk_read : ℚ)) / elapsed
    else 0
  let write_speed : ℚ :=
    if 0 < elapsed ∧ 0 < s.last_disk_write then
      ((write_bytes : ℚ) - (s.last_disk_write : ℚ)) / elapsed
    else 0
  ((max 0 read_speed, max 0 write_speed), ⟨read_bytes, write_bytes, now⟩)

/-- `SystemCommandCenter.get_cpu_usage` of `system_command_center_v4.py`
(lines 836-853), after the `idle = int(parts[4])`,
`total = sum(int(p) for p in parts[1:])` parse of the first `/proc/stat`
line.  The `hasattr(self, 'last_cpu_idle')` first-call test is modelled by
an `Option (ℕ × ℕ)` holding `(last_cpu_idle, last_cpu_total)`; the function
returns `max(0, min(100, usage))` and the new stored pair. -/
def get_cpu_usage (idle total : ℕ) (prev : Option (ℕ × ℕ)) : ℚ × (ℕ × ℕ) :=
  let usage : ℚ :=
    match prev with
    | some (li, lt) =>
      let d_idle : ℚ := (idle : ℚ) - (li : ℚ)
      let d_total : ℚ := (total : ℚ) - (lt : ℚ)
      if 0 < d_total then 100 * (1 - d_idle / d_total) else 0
    | none => 0
  (max 0 (min 100 usage), (idle, total))

/-- One core's line of `/proc/stat`: the idle column (`parts[4]`) and the sum
of all remaining columns, so that `total = idle + busy`. -/
structure CoreTicks where
  idle : ℕ
  busy : ℕ
deriving DecidableEq

/-- The aggregate `cpu ` line's idle field: in `/proc/stat` it is the sum of
the per-core idle fields, so a whole-file snapshot is modelled by the list
of per-core tick pairs and the aggregate line derived from it. -/
def agg_idle (snap : List CoreTicks) : ℕ := (snap.map CoreTicks.idle).sum

/-- The aggregate `cpu ` line's total (sum of all fields). -/
def agg_total (snap : List CoreTicks) : ℕ :=
  (snap.map (fun c => c.idle + c.busy)).sum

/-- The per-core body of `SystemCommandCenter.get_per_core_usage` (v4 lines
855-879) for one core: delta against the stored
`self.last_core_stats["core i"]` entry (`none` when the key is absent),
`100 * (1 - d_idle / d_total) if d_total > 0 else 0`, clamped. -/
def core_usage (c : CoreTicks) (prev : Option (ℕ × ℕ)) : ℚ :=
  let usage : ℚ :=
    match prev with
    | some (li, lt) =>
      let d_idle : ℚ := (c.idle : ℚ) - (li : ℚ)
      let d_total : ℚ := ((c.idle + c.busy : ℕ) : ℚ) - (lt : ℚ)
      if 0 < d_total then 100 * (1 - d_idle / d_total) else 0
    | none => 0
  max 0 (min 100 usage)

/-- `SystemCommandCenter.get_per_core_usage` (v4 lines 855-879): reads its
own `/proc/stat` snapshot and maps each core line, paired with the stored
`last_core_stats` dictionary (modelled as `ℕ → Option (ℕ × ℕ)`), to a
clamped usage. -/
def get_per_core_usage (snap : List CoreTicks) (prev : ℕ → Option (ℕ × ℕ)) :
    List ℚ :=
  (List.range snap.length).map (fun i => core_usage (snap.getD i ⟨0, 0⟩) (prev i))

/-- The CPU part of one tick of `update_all` (v4): `update_cpu` calls
`get_cpu_usage`, which performs its own read of `/proc/stat` (first read,
`s1`), and then `update_cpu_cores` calls `get_per_core_usage`, which
performs a second, independent read (`s2`).  The pair returned is (total
usage, per-core usages). -/
def cpu_tick (s1 s2 : List CoreTicks) (aggPrev : Option (ℕ × ℕ))
    (corePrev : ℕ → Option (ℕ × ℕ)) : ℚ × List ℚ :=
  ((get_cpu_usage (agg_idle s1) (agg_total s1) aggPrev).1,
   get_per_core_usage s2 corePrev)

/-- `SystemCommandCenter.get_cpu_freq` of `system_command_center_v4.py`
(lines 881-891): the input models the MHz values successfully parsed out of
`/proc/cpuinfo` (`none` when the read raised).  The code returns
`int(sum(freqs) / len(freqs)) if freqs else 0`, and `0` from its `except`
arm — the return type is a plain number with no unavailable variant. -/
def get_cpu_freq (freqs : Option (List ℕ)) : ℕ :=
  match freqs with
  | none => 0
  | some fs => if fs = [] then 0 else fs.sum / fs.length

/-- `SystemCommandCenter.get_gpu_fans` of `system_command_center_v4.py`
(lines 811-822): the input models the fan RPM values successfully read from
`fan1_input..fan3_input` (`none` when the outer read raised).  The code
returns `max(fans) if fans else 0`, and `0` from its `except` arm. -/
def get_gpu_fans (fans : Option (List ℕ)) : ℕ :=
  match fans with
  | none => 0
  | some fs => if fs = [] then 0 else fs.foldl max 0

/-- `SystemCommandCenter.get_cpu_temp` (v4): a successful read divides the
raw milli-degree integer by 1000; a failed read returns `None`. -/
def get_cpu_temp (raw : Option ℕ) : Option ℚ :=
  raw.map (fun n => (n : ℚ) / 1000)

/-- `SystemCommandCenter.get_gpu_temps` (v4 lines 781-793): without root the
pair is `(None, None)`; with root, a successful binary read yields the two
raw values, kept only when both pass the `0 < t < 120` plausibility check,
else `(None, None)`. -/
def get_gpu_temps (has_root : Bool) (raw : Option (ℕ × ℕ)) :
    Option ℕ × Option ℕ :=
  if has_root then
    match raw with
    | none => (none, none)
    | some (t1, t2) =>
      if 0 < t1 ∧ t1 < 120 ∧ 0 < t2 ∧ t2 < 120 then (some t1, some t2)
      else (none, none)
  else (none, none)

/-- The GPU-temperature branch of `SystemCommandCenter.update_gpu` (v4 lines
1166-1183) restricted to its data effects: when `t1` is available the
history is popped/appended and the status pair comes from
`get_temp_color_status(t1, (55, 80))`; when `t1` is `None` the history is
untouched and the status is the dim `"● NO ACCESS"` marker. -/
def update_gpu_temp (t1 : Option ℚ) (hist : List ℚ) :
    List ℚ × (String × String) :=
  match t1 with
  | some t => (history_push hist t, get_temp_color_status (some t) 55 80)
  | none => (hist, (colors_text_dim, "● NO ACCESS"))

/-- Scheduler state observable from `update_all`: the `print`ed error log
and the list of delays passed to `root.after`. -/
structure SchedState where
  log : List String
  scheduled : List ℕ
deriving DecidableEq

/-- The `try` body of `update_all`: the sub-updates run in sequence and the
first raised exception aborts the remaining ones and escapes. -/
def tick_body (steps : List (Except String Unit)) : Except String Unit :=
  steps.foldl (fun acc step => acc.bind (fun _ => step)) (Except.ok ())

/-- `SystemCommandCenter.update_all` of `system_command_center_v4.py`
(lines 1379-1394): the whole sampling pass is wrapped in
`try/except Exception`, whose handler only prints; afterwards — on both
paths — `self.root.after(1000, self.update_all)` schedules the next tick. -/
def update_all (steps : List (Except String Unit)) (s : SchedState) :
    SchedState :=
  let s1 :=
    match tick_body steps with
    | Except.ok _ => s
    | Except.error e => { s with log := s.log ++ [e] }
  { s1 with scheduled := s1.scheduled ++ [1000] }

/-- A run of consecutive ticks, each with its own pass outcome. -/
def run_ticks (ticks : List (List (Except String Unit))) (s : SchedState) :
    SchedState :=
  ticks.foldl (fun st steps => update_all steps st) s

/-! ## Claim theorems -/

/-- C6.  For all thresholds `low < high`, `get_temp_color_status` maps an
absent value to OFFLINE independent of the thresholds, any value strictly
below `low` to NOMINAL, any value with `low ≤ value < high` to ELEVATED
(so the value `low` itself is ELEVATED), and any value `≥ high` to CRITICAL
(so `high` itself is CRITICAL). -/
theorem classify_bands (low high v : ℚ) (hlh : low < high) :
    (get_temp_color_status none low high).2 = "● OFFLINE"
    ∧ (v < low → (get_temp_color_status (some v) low high).2 = "● NOMINAL")
    ∧ (low ≤ v → v < high →
        (get_temp_color_status (some v) low high).2 = "● ELEVATED")
    ∧ (high ≤ v → (get_temp_color_status (some v) low high).2 = "● CRITICAL") := by
  refine ⟨rfl, ?_, ?_, ?_⟩
  · intro h
    simp [get_temp_color_status, if_pos h]
  · intro h1 h2
    simp [get_temp_color_status, if_neg (not_lt.mpr h1), if_pos h2]
  · intro h
    simp [get_temp_color_status, if_neg (not_lt.mpr (le_of_lt (lt_of_lt_of_le hlh h))),
      if_neg (not_lt.mpr h)]

/-- Witness for `classify_bands` at thresholds `(55, 75)` and values
`none`, `54`, `55`, `75`. -/
theorem classify_bands_witness :
    (get_temp_color_status none 55 75).2 = "● OFFLINE"
    ∧ (get_temp_color_status (some 54) 55 75).2 = "● NOMINAL"
    ∧ (get_temp_color_status (some 55) 55 75).2 = "● ELEVATED"
    ∧ (get_temp_color_status (some 75) 55 75).2 = "● CRITICAL" :=
  ⟨(classify_bands 55 75 0 (by norm_num)).1,
   (classify_bands 55 75 54 (by norm_num)).2.1 (by norm_num),
   (classify_bands 55 75 55 (by norm_num)).2.2.1 (by norm_num) (by norm_num),
   (classify_bands 55 75 75 (by norm_num)).2.2.2 (by norm_num)⟩

/-- C7.  The history buffer starts as exactly 60 zeros; after every
sequence of pushes its length is still exactly 60, and once at least 60
values have been pushed its contents are exactly the last 60 pushed values
in push order (oldest first). -/
theorem history_buffer_invariant (vs : List ℚ) :
    history_init = List.replicate 60 0
    ∧ history_init.length = 60
    ∧ (vs.foldl history_push history_init).length = 60
    ∧ (60 ≤ vs.length →
        vs.foldl history_push history_init = vs.drop (vs.length - 60)) := by
  have hne : history_init ≠ [] := by simp [history_init]
  have hlen : history_init.length = 60 := by simp [history_init]
  have hfold := foldl_history_push vs history_init hne
  refine ⟨rfl, hlen, ?_, ?_⟩
  · rw [hfold, List.length_drop, List.length_append, hlen]
    omega
  · intro h
    rw [hfold]
    obtain ⟨k, hk⟩ : ∃ k, vs.length = 60 + k := ⟨vs.length - 60, by omega⟩
    rw [hk, show 60 + k - 60 = k by omega, ← hlen, List.drop_append]

/-- Witness for `history_buffer_invariant`: pushing 61 values (a `0`
followed by sixty `7`s) leaves the buffer equal to the last 60 of them. -/
theorem history_buffer_invariant_witness :
    ((0 : ℚ) :: List.replicate 60 7).foldl history_push history_init
      = ((0 : ℚ) :: List.replicate 60 7).drop
          (((0 : ℚ) :: List.replicate 60 7).length - 60) :=
  (history_buffer_invariant ((0 : ℚ) :: List.replicate 60 7)).2.2.2 (by simp)

/-- C8.  When the GPU temperature read is unavailable (`None`), the tick
leaves the history buffer untouched — no fabricated 0 is pushed — and the
status shown is the dim "no data" marker, whose colour is exactly the
colour the classifier assigns to an absent (OFFLINE) value. -/
theorem gpu_offline_no_push (hist : List ℚ) (low high : ℚ) :
    (update_gpu_temp none hist).1 = hist
    ∧ (update_gpu_temp none hist).2 = (colors_text_dim, "● NO ACCESS")
    ∧ (get_temp_color_status none low high).1 = colors_text_dim
    ∧ (get_temp_color_status none low high).2 = "● OFFLINE" :=
  ⟨rfl, rfl, rfl, rfl⟩

/-- C1.  First-ever sample, evaluated concretely.  In the v4 samplers the
stored previous counter starts at `0` (or the previous snapshot is absent),
so the `last > 0` guard (resp. the `hasattr` test) forces the first sample
to rate 0 whatever the raw counter and elapsed time are.  The v1 network
sampler has no such guard: constructed at time `0` with `last_net_rx = 0`,
its first call two seconds later with a raw counter of `3000` bytes reports
`3000 / 2 = 1500` bytes/s — a spurious rate, not 0. -/
theorem first_sample_rates_eval :
    (get_network_speed_v1 [⟨"eth0", 3000, 0⟩] 2 ⟨0, 0, 0⟩).1 = (1500, 0)
    ∧ (get_network_speed [⟨"eth0", 3000, 0⟩] 2 ⟨0, 0, 0⟩).1 = (0, 0)
    ∧ (get_disk_io [⟨"nvme0n1", 100, 50⟩] 2 ⟨0, 0, 0⟩).1 = (0, 0)
    ∧ (get_cpu_usage 1234 5678 none).1 = 0 := by
  have h1 : rx_total_v1 [⟨"eth0", 3000, 0⟩] = 3000 := by decide
  have h2 : tx_total_v1 [⟨"eth0", 3000, 0⟩] = 0 := by decide
  have h3 : rx_total_v4 [⟨"eth0", 3000, 0⟩] = 3000 := by decide
  have h4 : tx_total_v4 [⟨"eth0", 3000, 0⟩] = 0 := by decide
  have h5 : disk_read_bytes [⟨"nvme0n1", 100, 50⟩] = 51200 := by decide
  have h6 : disk_write_bytes [⟨"nvme0n1", 100, 50⟩] = 25600 := by decide
  refine ⟨?_, ?_, ?_, ?_⟩
  · norm_num [get_network_speed_v1, h1, h2, max_def, min_def]
  · norm_num [get_network_speed, h3, h4, max_def, min_def]
  · norm_num [get_disk_io, h5, h6, max_def, min_def]
  · norm_num [get_cpu_usage, max_def, min_def]

/-- C2 counterexample.  A stream with a prior nonzero reported rate: the
second call reported 1000 bytes/s; the third call arrives with the clock
unchanged (`elapsed = 0`) and returns 0, NOT the previously reported
1000 bytes/s. -/
theorem elapsed_zero_cex :
    (get_network_speed [⟨"eth0", 2000, 0⟩] 2 ⟨1000, 0, 1⟩).1 = (1000, 0)
    ∧ (get_network_speed [⟨"eth0", 2500, 0⟩] 2
        (get_network_speed [⟨"eth0", 2000, 0⟩] 2 ⟨1000, 0, 1⟩).2).1 = (0, 0)
    ∧ (0 : ℚ) ≠ (1000 : ℚ) := by
  have h1 : rx_total_v4 [⟨"eth0", 2000, 0⟩] = 2000 := by decide
  have h2 : tx_total_v4 [⟨"eth0", 2000, 0⟩] = 0 := by decide
  have h3 : rx_total_v4 [⟨"eth0", 2500, 0⟩] = 2500 := by decide
  have h4 : tx_total_v4 [⟨"eth0", 2500, 0⟩] = 0 := by decide
  refine ⟨?_, ?_, by norm_num⟩
  · norm_num [get_network_speed, h1, h2, max_def, min_def]
  · norm_num [get_network_speed, h1, h2, h3, h4, max_def, min_def]

/-- C2 amended.  When the clock did not advance (`elapsed ≤ 0`) the v4
network sampler returns rate 0 for both streams — not the previously
reported rate, which it does not store — and the guarded branch performs no
division. -/
theorem elapsed_nonpos_returns_zero (ifaces : List Iface) (now : ℚ)
    (s : NetState) (h : now ≤ s.last_net_time) :
    (get_network_speed ifaces now s).1 = (0, 0) := by
  have hne : ¬ (0 : ℚ) < now - s.last_net_time := by
    rw [not_lt]
    exact sub_nonpos.mpr h
  simp only [get_network_speed]
  rw [if_neg (fun hc => hne hc.1), if_neg (fun hc => hne hc.1)]
  norm_num

/-- Witness for `elapsed_nonpos_returns_zero` at a concrete state whose
clock reading equals the incoming `now`. -/
theorem elapsed_nonpos_returns_zero_witness :
    (get_network_speed [⟨"eth0", 500, 500⟩] 5 ⟨100, 100, 5⟩).1 = (0, 0) :=
  elapsed_nonpos_returns_zero [⟨"eth0", 500, 500⟩] 5 ⟨100, 100, 5⟩ (by norm_num)

/-- C3.  When the clock advanced (`t₂ > t₁`) but a counter went backwards
(`v₂ < v₁`, a reset or wraparound), both the v4 network sampler and the v4
disk sampler report rate 0 (never negative) and overwrite the stored
previous sample with `(v₂, t₂)`, so the next delta is computed against
`v₂`. -/
theorem counter_reset_resync (ifaces : List Iface) (rows : List DiskRow)
    (now : ℚ) (sn : NetState) (sd : DiskState)
    (htn : sn.last_net_time < now) (hvn : rx_total_v4 ifaces < sn.last_net_rx)
    (htd : sd.last_disk_time < now)
    (hvd : disk_read_bytes rows < sd.last_disk_read) :
    (get_network_speed ifaces now sn).1.1 = 0
    ∧ (get_network_speed ifaces now sn).2
        = ⟨rx_total_v4 ifaces, tx_total_v4 ifaces, now⟩
    ∧ (get_disk_io rows now sd).1.1 = 0
    ∧ (get_disk_io rows now sd).2
        = ⟨disk_read_bytes rows, disk_write_bytes rows, now⟩ := by
  have hen : (0 : ℚ) < now - sn.last_net_time := sub_pos.mpr htn
  have hed : (0 : ℚ) < now - sd.last_disk_time := sub_pos.mpr htd
  have hpn : 0 < sn.last_net_rx := lt_of_le_of_lt (Nat.zero_le _) hvn
  have hpd : 0 < sd.last_disk_read := lt_of_le_of_lt (Nat.zero_le _) hvd
  have hnn : ((rx_total_v4 ifaces : ℚ) - (sn.last_net_rx : ℚ)) < 0 :=
    sub_neg.mpr (by exact_mod_cast hvn)
  have hnd : ((disk_read_bytes rows : ℚ) - (sd.last_disk_read : ℚ)) < 0 :=
    sub_neg.mpr (by exact_mod_cast hvd)
  refine ⟨?_, rfl, ?_, rfl⟩
  · simp only [get_network_speed]
    rw [if_pos ⟨hen, hpn⟩]
    exact max_eq_left (le_of_lt (div_neg_of_neg_of_pos hnn hen))
  · simp only [get_disk_io]
    rw [if_pos ⟨hed, hpd⟩]
    exact max_eq_left (le_of_lt (div_neg_of_neg_of_pos hnd hed))

/-- Witness for `counter_reset_resync`: network counter dropped from 500 to
100, disk byte counter dropped from 99999 to 51200, clock advanced from 0
to 1. -/
theorem counter_reset_resync_witness :
    (get_network_speed [⟨"eth0", 100, 0⟩] 1 ⟨500, 0, 0⟩).1.1 = 0
    ∧ (get_network_speed [⟨"eth0", 100, 0⟩] 1 ⟨500, 0, 0⟩).2
        = ⟨rx_total_v4 [⟨"eth0", 100, 0⟩], tx_total_v4 [⟨"eth0", 100, 0⟩], 1⟩
    ∧ (get_disk_io [⟨"nvme0n1", 100, 50⟩] 1 ⟨99999, 0, 0⟩).1.1 = 0
    ∧ (get_disk_io [⟨"nvme0n1", 100, 50⟩] 1 ⟨99999, 0, 0⟩).2
        = ⟨disk_read_bytes [⟨"nvme0n1", 100, 50⟩],
           disk_write_bytes [⟨"nvme0n1", 100, 50⟩], 1⟩ :=
  counter_reset_resync [⟨"eth0", 100, 0⟩] [⟨"nvme0n1", 100, 50⟩] 1
    ⟨500, 0, 0⟩ ⟨99999, 0, 0⟩ (by norm_num) (by decide) (by norm_num) (by decide)

/-- A tick that reads the same one-core snapshot for both computations
would always report a total usage equal to the single core's usage: both
getters then apply the identical delta formula to identical counters and
identical stored state. -/
theorem cpu_tick_single_read (c : CoreTicks) (a b : ℕ) :
    cpu_tick [c] [c] (some (a, b)) (fun _ => some (a, b))
      = (core_usage c (some (a, b)), [core_usage c (some (a, b))]) := rfl

/-- C4 counterexample.  `get_cpu_usage` and `get_per_core_usage` each
perform their own read of `/proc/stat`.  With the stored state `(idle=0,
total=100)` for both the aggregate and the single core, a tick whose first
read sees snapshot A (`idle=0, busy=200`) and whose second read sees
snapshot B (`idle=100, busy=100`) reports total usage 100% with the core at
0% — a result that differs from the single-snapshot tick on A and on B
(and, by `cpu_tick_single_read`, from any single-snapshot tick), so the two
values were not derived from one common snapshot. -/
theorem cpu_tick_two_reads_cex :
    cpu_tick [⟨0, 200⟩] [⟨100, 100⟩] (some (0, 100)) (fun _ => some (0, 100))
      = (100, [0])
    ∧ cpu_tick [⟨0, 200⟩] [⟨0, 200⟩] (some (0, 100)) (fun _ => some (0, 100))
      = (100, [100])
    ∧ cpu_tick [⟨100, 100⟩] [⟨100, 100⟩] (some (0, 100)) (fun _ => some (0, 100))
      = (0, [0]) := by
  refine ⟨?_, ?_, ?_⟩ <;>
    norm_num [cpu_tick, get_cpu_usage, get_per_core_usage, core_usage,
      agg_idle, agg_total, max_def, min_def, List.range_succ]

/-- C4 amended.  Within one tick the total usage depends only on the first
`/proc/stat` read and the per-core usages only on the second, independent
read. -/
theorem cpu_tick_reads_independent (s1 s1' s2 s2' : List CoreTicks)
    (p : Option (ℕ × ℕ)) (q : ℕ → Option (ℕ × ℕ)) :
    (cpu_tick s1 s2 p q).1 = (cpu_tick s1 s2' p q).1
    ∧ (cpu_tick s1 s2 p q).2 = (cpu_tick s1' s2 p q).2 :=
  ⟨rfl, rfl⟩

/-- C5.  With a prior snapshot stored and a positive total-tick delta, the
reported CPU usage is exactly `100 × (1 − Δidle/Δtotal)` clamped to
`[0, 100]`; on the snapshots `(idle=1000, total=2000)` then `(idle=1400,
total=2500)` it is exactly 20. -/
theorem cpu_usage_formula (idle total li lt : ℕ) (h : (lt : ℚ) < (total : ℚ)) :
    (get_cpu_usage idle total (some (li, lt))).1
      = max 0 (min 100
          (100 * (1 - ((idle : ℚ) - (li : ℚ)) / ((total : ℚ) - (lt : ℚ)))))
    ∧ (get_cpu_usage 1400 2500 (some (1000, 2000))).1 = 20 := by
  constructor
  · simp only [get_cpu_usage]
    rw [if_pos (sub_pos.mpr h)]
  · norm_num [get_cpu_usage, max_def, min_def]

/-- Witness for `cpu_usage_formula` at the claim's concrete snapshots. -/
theorem cpu_usage_formula_witness :
    (get_cpu_usage 1400 2500 (some (1000, 2000))).1 = 20 :=
  (cpu_usage_formula 1400 2500 1000 2000 (by norm_num)).2

/-- C9 counterexample.  The failure paths of `get_cpu_freq` and
`get_gpu_fans` return the plain number 0 — their return type has no
unavailable variant — so a failed read is indistinguishable from a genuine
reading of 0 (e.g. a real 0-RPM fan), contradicting "never a sentinel
number such as -1 or 0". -/
theorem freq_fans_sentinel_cex :
    get_cpu_freq none = 0 ∧ get_cpu_freq (some []) = 0
    ∧ get_gpu_fans none = 0 ∧ get_gpu_fans (some []) = 0
    ∧ get_gpu_fans (some [0]) = 0 :=
  ⟨rfl, rfl, rfl, rfl, rfl⟩

/-- C9 amended.  The temperature samplers do represent failure by an
explicit `None` (including the out-of-range plausibility rejection and the
unprivileged case), but the CPU-frequency and fan-speed samplers return the
sentinel number 0 on their failure paths. -/
theorem gauge_unavailable_repr :
    get_cpu_temp none = none
    ∧ get_gpu_temps false (some (50, 60)) = (none, none)
    ∧ get_gpu_temps true none = (none, none)
    ∧ get_gpu_temps true (some (130, 50)) = (none, none)
    ∧ get_cpu_freq none = 0
    ∧ get_gpu_fans none = 0 := by
  refine ⟨rfl, ?_, rfl, ?_, rfl, rfl⟩ <;> simp [get_gpu_temps]

/-- C10.  `update_all` wraps the whole sampling pass in `try/except` and
calls `root.after(1000, update_all)` after the handler, so every tick —
whether its pass succeeded or raised — appends exactly one new scheduled
tick; over any run of ticks, each tick schedules its successor. -/
theorem tick_always_rescheduled (steps : List (Except String Unit))
    (ticks : List (List (Except String Unit))) (s t : SchedState) :
    (update_all steps s).scheduled = s.scheduled ++ [1000]
    ∧ (run_ticks ticks t).scheduled.length = t.scheduled.length + ticks.length := by
  have hone : ∀ (a : List (Except String Unit)) (u : SchedState),
      (update_all a u).scheduled = u.scheduled ++ [1000] := by
    intro a u
    cases h : tick_body a <;> simp [update_all, h]
  refine ⟨hone steps s, ?_⟩
  induction ticks generalizing t with
  | nil => simp [run_ticks]
  | cons a as ih =>
    show (run_ticks as (update_all a t)).scheduled.length = _
    rw [ih (update_all a t), hone a t, List.length_append]
    simp only [List.length_cons, List.length_nil]
    omega

end SCC
